import Mathlib

/-!
Verification of the DataToken asset service (datatoken/service/asset.py)
against its specification.

The orchestration layer (`AssetService`) is embedded directly from the
source.  The external collaborators it calls — the Registry (dt_factory),
the Object Store (IPFS provider), the Verifier, the resolver and the
Lineage Tracer — are not part of the orchestration source; they are
modelled from the specification, either as abstract functions collected in
an `Env` record (hashing, signature checking, fresh identifiers, issuer
names, lineage rendering) or as explicit state in a `World` record
(token records, grant edges, stored documents).
-/

namespace DataToken

/-- Token identifiers, addresses, signatures and locators are opaque
strings at this level of the model. -/
abbrev Dt := String

abbrev Address := String

abbrev Signature := String

abbrev Locator := String

/-- Checksums (content hashes) are abstract values; only equality is
observed. -/
abbrev Checksum := Nat

/-- A workflow entry of a composite service descriptor: a child token
identifier together with the service index consumed on that child. -/
structure WfEntry where
  child : Dt
  service : String
  deriving DecidableEq, Repr

/-- A service descriptor is either a leaf descriptor (operation template
identifier plus constraint keys) or a workflow map for a composite token. -/
inductive Descriptor where
  | leaf (template : String) (constraintKeys : List String)
  | workflow (entries : List WfEntry)
  deriving DecidableEq, Repr

/-- One declared service of an asset: index (unique within its DDO),
endpoint, descriptor, and attributes (price, optional operation name). -/
structure Service where
  index : String
  endpoint : String
  descriptor : Descriptor
  price : Nat
  op_name : Option String := none
  deriving DecidableEq, Repr

/-- Asset metadata: the `main` fields read by the orchestrator. -/
structure Metadata where
  name : Option String := none
  mtype : Option String := none
  desc : Option String := none
  fig : Option String := none
  deriving DecidableEq, Repr

/-- The body of a DDO: everything the canonical checksum is computed
over (the proof itself excluded). -/
structure DocBody where
  dt : Dt
  creator : Address
  metadata : Metadata
  services : List Service
  child_dts : List Dt
  deriving DecidableEq, Repr

/-- A DDO: the asset document, its body plus the attached proof checksum. -/
structure DDO extends DocBody where
  proof_checksum : Checksum
  deriving DecidableEq, Repr

/-- A DDO is composite exactly when it declares child tokens. -/
def DDO.is_cdt (d : DDO) : Bool :=
  !d.child_dts.isEmpty

/-- A token record held by the Registry:
`dt -> (owner, issuer, isLeaf, checksum, locator)`. -/
structure TokenRecord where
  owner : Address
  issuer : Address
  isLeaf : Bool
  checksum : Checksum
  locator : Locator
  deriving DecidableEq, Repr

/-- The abstract primitives the orchestrator depends on: canonical
hashing, raw signature verification, fresh token identifier generation,
content addressing, published operation templates, the issuer-name
directory, and the lineage renderer. -/
structure Env where
  hashDoc : DocBody → Checksum
  sigOk : Address → Signature → String → Bool
  newDt : Dt
  locatorOf : DDO → Locator
  templates : List (String × List String)
  issuerName : Address → String
  traceRender : DDO → String

/-- The mutable state reached through the Registry and the Object Store:
minted token records (newest first), grant edges `(child, composite)`,
activated composite tokens, and stored documents keyed by locator. -/
structure World where
  records : List (Dt × TokenRecord)
  grants : List (Dt × Dt)
  activated : List Dt
  store : List (Locator × DDO)

/-- Modelled from the spec: Registry `getTokenRecord` lookup. -/
def getTokenRecord (w : World) (dt : Dt) : Option TokenRecord :=
  w.records.lookup dt

/-- Modelled from the spec: Registry `getEdge` lookup, true iff the grant
edge `a -> b` has been recorded. -/
def getEdge (w : World) (a b : Dt) : Bool :=
  w.grants.contains (a, b)

/-- Modelled from the spec: Object Store `get`, content-addressed read. -/
def storeGet (w : World) (l : Locator) : Option DDO :=
  w.store.lookup l

/-- Modelled from the spec: Object Store `put`, returning the content
locator and the extended store. -/
def storePut (env : Env) (w : World) (d : DDO) : Locator × World :=
  let l := env.locatorOf d
  (l, { w with store := (l, d) :: w.store })

/-- Modelled from the spec: Registry `mintToken`; records
`(owner, issuer, isLeaf, checksum, locator)` with the signing wallet as
issuer. -/
def mint_dt (w : World) (dt : Dt) (owner : Address) (isLeaf : Bool)
    (checksum : Checksum) (loc : Locator) (wallet : Address) : World :=
  { w with records :=
      (dt, { owner := owner, issuer := wallet, isLeaf := isLeaf,
             checksum := checksum, locator := loc }) :: w.records }

/-- Modelled from the spec: Verifier `checkDtOwner`, a Registry lookup
comparing the recorded owner; an unknown token has no owner. -/
def check_dt_owner (w : World) (dt : Dt) (address : Address) : Bool :=
  match getTokenRecord w dt with
  | some r => r.owner == address
  | none => false

/-- Modelled from the spec: Verifier `checkDtPerm`, true iff a grant edge
`dt -> cdt` exists. -/
def check_dt_perm (w : World) (dt cdt : Dt) : Bool :=
  getEdge w dt cdt

/-- Modelled from the spec: Verifier `verifySignature`, standard
public-key signature verification over an explicit message. -/
def verify_signature (env : Env) (address : Address) (signature : Signature)
    (message : String) : Bool :=
  env.sigOk address signature message

/-- Modelled from the spec: Verifier `verifyDdoIntegrity`, recomputes the
canonical checksum of the document body and compares it with the value
recorded by the Registry at mint time. -/
def verify_ddo_integrity (env : Env) (ddo : DDO) (expected : Checksum) : Bool :=
  env.hashDoc ddo.toDocBody == expected

/-- Modelled from the spec: `resolve_asset` retrieves the token record
from the Registry and then the document from the Object Store by the
recorded locator; either component may be absent. -/
def resolve_asset (w : World) (dt : Dt) : Option TokenRecord × Option DDO :=
  match getTokenRecord w dt with
  | none => (none, none)
  | some r => (some r, storeGet w r.locator)

/-- Modelled from the spec: a leaf service descriptor must reference an
existing operation template and declare constraint keys accepted by it. -/
def template_ok (env : Env) (tid : String) (ckeys : List String) : Bool :=
  match env.templates.lookup tid with
  | some params => ckeys.all (fun k => params.contains k)
  | none => false

/-- Modelled from the spec: a workflow entry is valid for a child when the
referenced service index exists on that child's resolved DDO. -/
def child_service_ok (w : World) (d : Dt) (sidx : String) : Bool :=
  match resolve_asset w d with
  | (_, some cddo) => cddo.services.any (fun s => s.index == sidx)
  | _ => false

/-- Modelled from the spec: Verifier `verifyServices`.  With no
`required` restriction (publish time), a leaf token needs every service
descriptor to pass the template check, and a composite token needs every
workflow entry to reference a declared child carrying the referenced
service.  Restricted to `required` tokens (authorization time), each
required token must be a declared child of the document and be consumed
through a valid workflow entry of some service. -/
def verify_services (env : Env) (w : World) (ddo : DDO)
    (required : Option (List Dt)) (_full : Bool) : Bool :=
  match required with
  | some dts =>
      dts.all fun d =>
        ddo.child_dts.contains d &&
        ddo.services.any fun s =>
          match s.descriptor with
          | .workflow entries =>
              match entries.find? (fun e => e.child == d) with
              | some e => child_service_ok w e.child e.service
              | none => false
          | .leaf _ _ => false
  | none =>
      if ddo.is_cdt then
        ddo.services.all fun s =>
          match s.descriptor with
          | .workflow entries =>
              entries.all fun e =>
                ddo.child_dts.contains e.child && child_service_ok w e.child e.service
          | .leaf _ _ => false
      else
        ddo.services.all fun s =>
          match s.descriptor with
          | .leaf tid ckeys => template_ok env tid ckeys
          | .workflow _ => false

/-- Errors raised by document building: `MalformedService` from the
document model, and the `AssertionError` raised by `generate_ddo` when
service verification fails. -/
inductive BuildError where
  | malformedService
  | assertionError
  deriving DecidableEq, Repr

/-- Two of the supplied services share an index. -/
def dupIndex : List Service → Bool
  | [] => false
  | s :: rest => rest.any (fun t => t.index == s.index) || dupIndex rest

/-- Some service descriptor references a workflow entry whose child token
is not among the declared child tokens. -/
def badWorkflowRef (child_dts : List Dt) (services : List Service) : Bool :=
  services.any fun s =>
    match s.descriptor with
    | .workflow entries => entries.any (fun e => !child_dts.contains e.child)
    | .leaf _ _ => false

/-- Embedded from `AssetService.generate_ddo`, with the DDO construction
steps modelled from the spec (the document model is not part of the
orchestration source): build the document, fail with `MalformedService`
on a duplicate service index or a workflow reference to an unknown child,
assign a fresh token identifier, attach the proof checksum, and, only
when `verify` is set, raise an `AssertionError` if the service
verification fails. -/
def built_body (env : Env) (metadata : Metadata) (services : List Service)
    (owner_address : Address) (child_dts : List Dt) : DocBody :=
  { dt := env.newDt, creator := owner_address, metadata := metadata,
    services := services, child_dts := child_dts }

/-- The document produced by a successful build: the body with the fresh
identifier, and the proof checksum computed over that body. -/
def built_ddo (env : Env) (metadata : Metadata) (services : List Service)
    (owner_address : Address) (child_dts : List Dt) : DDO :=
  { toDocBody := built_body env metadata services owner_address child_dts,
    proof_checksum :=
      env.hashDoc (built_body env metadata services owner_address child_dts) }

def generate_ddo (env : Env) (w : World) (metadata : Metadata)
    (services : List Service) (owner_address : Address)
    (child_dts : List Dt) (verify : Bool) : Except BuildError DDO :=
  if dupIndex services || badWorkflowRef child_dts services then
    .error .malformedService
  else
    let ddo : DDO := built_ddo env metadata services owner_address child_dts
    if verify && !verify_services env w ddo none true then
      .error .assertionError
    else
      .ok ddo

/-- Externally visible effects of `publish_dt`, in program order. -/
inductive Effect where
  | putDoc (d : DDO) (loc : Locator)
  | mintToken (dt : Dt) (owner : Address) (isLeaf : Bool)
      (checksum : Checksum) (loc : Locator) (wallet : Address)
  deriving DecidableEq, Repr

/-- Embedded from `AssetService.publish_dt`: store the document in the
Object Store obtaining its locator, then mint the token in the Registry
with `(owner = creator, isLeaf = child_dts empty, checksum = proof
checksum, locator)`.  Returns the new world together with the effect
trace in program order. -/
def publish_dt (env : Env) (w : World) (ddo : DDO)
    (issuer_wallet : Address) : World × List Effect :=
  let pr := storePut env w ddo
  let ipfs_path := pr.1
  let w1 := pr.2
  let dt := ddo.dt
  let owner := ddo.creator
  let isLeaf := ddo.child_dts.isEmpty
  let checksum := ddo.proof_checksum
  let w2 := mint_dt w1 dt owner isLeaf checksum ipfs_path issuer_wallet
  (w2, [Effect.putDoc ddo ipfs_path,
        Effect.mintToken dt owner isLeaf checksum ipfs_path issuer_wallet])

/-- Embedded from `AssetService.grant_dt_perm`: record the grant edge
`dt -> grantee` in the Registry (idempotent). -/
def grant_dt_perm (w : World) (dt grantee : Dt) (_owner_wallet : Address) : World :=
  if w.grants.contains (dt, grantee) then w
  else { w with grants := (dt, grantee) :: w.grants }

/-- Embedded from `AssetService.activate_cdt`: mark the composite token
active in the Registry. -/
def activate_cdt (w : World) (cdt : Dt) (_child_dts : List Dt)
    (_aggregator_wallet : Address) : World :=
  { w with activated := cdt :: w.activated }

/-- Embedded from `AssetService.check_service_terms`: succeed immediately
on an existing grant `dt -> cdt`; otherwise require ownership of `dt`,
resolve the composite token and its document, verify the aggregator
signature over `<consumeAddress><cdt>` with the recorded issuer as
consume address, verify document integrity against the minted checksum,
and verify the declared services restricted to `dt`. -/
def check_service_terms (env : Env) (w : World) (cdt dt : Dt)
    (owner_address : Address) (signature : Signature) : Bool :=
  if check_dt_perm w dt cdt then
    true
  else if !check_dt_owner w dt owner_address then
    false
  else
    match resolve_asset w cdt with
    | (some data, some cdt_ddo) =>
        let consume_address := data.issuer
        let original_msg := consume_address ++ cdt
        if !verify_signature env consume_address signature original_msg then
          false
        else if !verify_ddo_integrity env cdt_ddo data.checksum then
          false
        else if !verify_services env w cdt_ddo (some [dt]) false then
          false
        else
          true
    | _ => false

/-- One marketplace listing entry. -/
structure MarketEntry where
  dt : Dt
  issuer : String
  name : Option String
  fig : Option String
  union_or_not : Bool
  deriving DecidableEq, Repr

/-- Projection of one registered token into its marketplace entry. -/
def market_entry_of (env : Env) (dt : Dt) (rec : TokenRecord) (ddo : DDO) :
    MarketEntry :=
  { dt := dt, issuer := env.issuerName rec.issuer, name := ddo.metadata.name,
    fig := ddo.metadata.fig, union_or_not := ddo.is_cdt }

/-- One enumeration step of the marketplace listing: resolve the document
by its locator, drop Algorithm-typed assets, verify integrity, and
project the entry; any failure yields no entry. -/
def market_step (env : Env) (w : World) (p : Dt × TokenRecord) :
    Option MarketEntry :=
  match storeGet w p.2.locator with
  | some ddo =>
      if ddo.metadata.mtype != some "Algorithm" then
        if verify_ddo_integrity env ddo p.2.checksum then
          some (market_entry_of env p.1 p.2 ddo)
        else none
      else none
  | none => none

/-- Embedded from `AssetService.get_dt_marketplace`: enumerate all
registered tokens and keep the entries whose documents resolve, are not
Algorithm-typed and pass the integrity check. -/
def get_dt_marketplace (env : Env) (w : World) : List MarketEntry :=
  w.records.filterMap (market_step env w)

/-- The scalar details of one token. -/
structure DtInfo where
  name : Option String
  owner : Address
  issuer : String
  desc : Option String
  mtype : Option String
  fig : Option String
  deriving DecidableEq, Repr

/-- One projected service in the details view. -/
structure ServiceEntry where
  sid : String
  op : Option String
  price : Nat
  constrains : Descriptor
  deriving DecidableEq, Repr

/-- Embedded from `AssetService.get_dt_details`: resolve the token record
and document, check integrity, and return the info, the projected
services, and the rendered lineage for a composite token (`none` for a
leaf); any resolution or integrity failure yields `none`. -/
def get_dt_details (env : Env) (w : World) (dt : Dt) :
    Option (DtInfo × List ServiceEntry × Option String) :=
  match resolve_asset w dt with
  | (some data, some ddo) =>
      if !verify_ddo_integrity env ddo data.checksum then
        none
      else
        let dt_info : DtInfo :=
          { name := ddo.metadata.name, owner := data.owner,
            issuer := env.issuerName data.issuer, desc := ddo.metadata.desc,
            mtype := ddo.metadata.mtype, fig := ddo.metadata.fig }
        let union_data : Option String :=
          if ddo.is_cdt then some (env.traceRender ddo) else none
        let service_lists : List ServiceEntry :=
          ddo.services.map fun s =>
            { sid := s.index, op := s.op_name, price := s.price,
              constrains := s.descriptor }
        some (dt_info, service_lists, union_data)
  | _ => none

/-! Concrete scenario used to evaluate the development on explicit
inputs: leaf tokens `A` and `B`, the composite `C` over both, and the
composite `D` over `C`; a grant edge `A -> C` is recorded but no edge
`A -> D` or `B -> C`. -/

/-- A concrete environment: constant hash, signatures valid exactly when
the signature string is `good`. -/
def env0 : Env :=
  { hashDoc := fun _ => 7
    sigOk := fun _ s _ => s == "good"
    newDt := "N"
    locatorOf := fun d => "loc:" ++ d.dt
    templates := [("t1", ["a", "b"])]
    issuerName := fun a => "org:" ++ a
    traceRender := fun _ => "tree" }

/-- Leaf service of token `A`. -/
def svcA : Service :=
  { index := "s0", endpoint := "ep", descriptor := .leaf "t1" ["a"], price := 1 }

/-- Leaf service of token `B`. -/
def svcB : Service :=
  { index := "s0b", endpoint := "ep", descriptor := .leaf "t1" ["b"], price := 1 }

/-- Document of leaf token `A`. -/
def ddoA : DDO :=
  { dt := "A", creator := "ownA",
    metadata := { name := some "dataset1", mtype := some "Dataset" },
    services := [svcA], child_dts := [], proof_checksum := 7 }

/-- Document of leaf token `B`. -/
def ddoB : DDO :=
  { dt := "B", creator := "ownB",
    metadata := { name := some "dataset2", mtype := some "Dataset" },
    services := [svcB], child_dts := [], proof_checksum := 7 }

/-- Document of composite token `C`, consuming `A` and `B`. -/
def ddoC : DDO :=
  { dt := "C", creator := "ownC",
    metadata := { name := some "union", mtype := some "Dataset" },
    services := [{ index := "sC", endpoint := "ep",
                   descriptor := .workflow [⟨"A", "s0"⟩, ⟨"B", "s0b"⟩],
                   price := 2 }],
    child_dts := ["A", "B"], proof_checksum := 7 }

/-- Document of composite token `D`, consuming only `C`. -/
def ddoD : DDO :=
  { dt := "D", creator := "ownD",
    metadata := { name := some "pipeline", mtype := some "Dataset" },
    services := [{ index := "sD", endpoint := "ep",
                   descriptor := .workflow [⟨"C", "sC"⟩],
                   price := 3 }],
    child_dts := ["C"], proof_checksum := 7 }

/-- A structurally well-formed service whose leaf descriptor references
an unpublished operation template, so service verification fails even
though building succeeds. -/
def svcX : Service :=
  { index := "sX", endpoint := "ep", descriptor := .leaf "missing" [],
    price := 1 }

/-- The concrete world holding the four minted tokens, their documents,
and the single grant edge `A -> C`. -/
def w0 : World :=
  { records :=
      [("A", { owner := "ownA", issuer := "issA", isLeaf := true,
               checksum := 7, locator := "lA" }),
       ("B", { owner := "ownB", issuer := "issB", isLeaf := true,
               checksum := 7, locator := "lB" }),
       ("C", { owner := "ownC", issuer := "issC", isLeaf := false,
               checksum := 7, locator := "lC" }),
       ("D", { owner := "ownD", issuer := "issD", isLeaf := false,
               checksum := 7, locator := "lD" })]
    grants := [("A", "C")]
    activated := ["C", "D"]
    store := [("lA", ddoA), ("lB", ddoB), ("lC", ddoC), ("lD", ddoD)] }

/-- An existing grant edge makes the authorization check succeed at once,
whatever the other arguments are. -/
theorem check_terms_of_perm (env : Env) (w : World) (cdt dt : Dt)
    (owner_address : Address) (signature : Signature)
    (h : check_dt_perm w dt cdt = true) :
    check_service_terms env w cdt dt owner_address signature = true := by
  simp [check_service_terms, h]

/-- C1: whenever a grant edge from `dt` to `cdt` already exists in the
Registry, `check_service_terms` returns true immediately, for every
owner address and every signature, with no ownership, signature,
integrity or service check interfering. -/
theorem grant_short_circuits_check_service_terms (env : Env) (w : World)
    (cdt dt : Dt) (owner_address : Address) (signature : Signature)
    (h : check_dt_perm w dt cdt = true) :
    check_service_terms env w cdt dt owner_address signature = true :=
  check_terms_of_perm env w cdt dt owner_address signature h

/-- C1 witness: the grant `A -> C` is recorded in the concrete world, and
the check succeeds for an arbitrary claimed owner and a corrupted
signature that the signature verifier rejects. -/
theorem grant_short_circuits_check_service_terms_witness :
    check_service_terms env0 w0 "C" "A" "nobody" "corrupted" = true :=
  grant_short_circuits_check_service_terms env0 w0 "C" "A" "nobody" "corrupted"
    (by decide)

/-- C2: with no pre-existing grant, the authorization check succeeds
exactly when the claimed owner is the recorded owner of `dt`, the
composite token record and its document both resolve, the signature
verifies over the concatenated message `<consumeAddress><cdt>` with the
recorded issuer as consume address, the document integrity check against
the minted checksum passes, and the declared services restricted to `dt`
verify; failing any of these yields false. -/
theorem check_service_terms_no_grant_iff (env : Env) (w : World) (cdt dt : Dt)
    (owner_address : Address) (signature : Signature)
    (hng : check_dt_perm w dt cdt = false) :
    check_service_terms env w cdt dt owner_address signature = true ↔
      (check_dt_owner w dt owner_address = true ∧
       ∃ data cdt_ddo, resolve_asset w cdt = (some data, some cdt_ddo) ∧
         verify_signature env data.issuer signature (data.issuer ++ cdt) = true ∧
         verify_ddo_integrity env cdt_ddo data.checksum = true ∧
         verify_services env w cdt_ddo (some [dt]) false = true) := by
  unfold check_service_terms
  rw [hng]
  cases howner : check_dt_owner w dt owner_address
  · simp [howner]
  · rcases hres : resolve_asset w cdt with ⟨od, odd⟩
    cases od with
    | none => simp [hres]
    | some data =>
      cases odd with
      | none => simp [hres]
      | some cdt_ddo =>
        cases hsig : verify_signature env data.issuer signature (data.issuer ++ cdt) <;>
          cases hint : verify_ddo_integrity env cdt_ddo data.checksum <;>
            cases hsvc : verify_services env w cdt_ddo (some [dt]) false
        all_goals simp [hres, hsig, hint, hsvc]
        all_goals exact ⟨data, cdt_ddo, ⟨rfl, rfl⟩, hsig, hint, hsvc⟩

/-- C2 witness: token `B` has no grant to `C`, and the full chain of
checks passes for its owner with a valid signature, so the check returns
true through the characterization. -/
theorem check_service_terms_no_grant_iff_witness :
    check_service_terms env0 w0 "C" "B" "ownB" "good" = true :=
  (check_service_terms_no_grant_iff env0 w0 "C" "B" "ownB" "good"
      (by decide)).mpr
    ⟨by decide,
     ⟨{ owner := "ownC", issuer := "issC", isLeaf := false,
        checksum := 7, locator := "lC" }, ddoC,
      by decide, by decide, by decide, by decide⟩⟩

/-- C3: authorization is per declared edge, not transitive: when `A` is
not a declared child of the composite `D` and no direct grant `A -> D`
exists, the request against `D` is denied, while the same request
against the intermediate composite `C` succeeds once the grant `A -> C`
is recorded. -/
theorem authorization_per_declared_edge (env : Env) (w : World)
    (A C D : Dt) (ownerA : Address) (signature : Signature)
    (rec : TokenRecord) (d_ddo : DDO)
    (hng : check_dt_perm w A D = false)
    (hres : resolve_asset w D = (some rec, some d_ddo))
    (hchild : d_ddo.child_dts.contains A = false)
    (hgrant : check_dt_perm w A C = true) :
    check_service_terms env w D A ownerA signature = false ∧
    check_service_terms env w C A ownerA signature = true := by
  refine ⟨?_, check_terms_of_perm env w C A ownerA signature hgrant⟩
  have hmem : A ∉ d_ddo.child_dts := by simpa using hchild
  have hsvc : verify_services env w d_ddo (some [A]) false = false := by
    simp [verify_services, hmem]
  unfold check_service_terms
  rw [hng]
  cases howner : check_dt_owner w A ownerA
  · simp
  · rw [hres]
    cases hsig : verify_signature env rec.issuer signature (rec.issuer ++ D) <;>
      cases hint : verify_ddo_integrity env d_ddo rec.checksum <;>
        simp [hsig, hint, hsvc]

/-- C3 witness: in the concrete world `A` is a child of `C` and `C` a
child of `D`, with a grant `A -> C` but none `A -> D`; the request of
the owner of `A` with a valid signature is denied against `D` and
accepted against `C`. -/
theorem authorization_per_declared_edge_witness :
    check_service_terms env0 w0 "D" "A" "ownA" "good" = false ∧
    check_service_terms env0 w0 "C" "A" "ownA" "good" = true :=
  authorization_per_declared_edge env0 w0 "A" "C" "D" "ownA" "good"
    { owner := "ownD", issuer := "issD", isLeaf := false,
      checksum := 7, locator := "lD" } ddoD
    (by decide) (by decide) (by decide) (by decide)

/-- C4: with no pre-existing grant, a composite token whose Registry
record or document cannot be resolved is denied with the boolean false. -/
theorem check_service_terms_missing_record_false (env : Env) (w : World)
    (cdt dt : Dt) (owner_address : Address) (signature : Signature)
    (hng : check_dt_perm w dt cdt = false)
    (hmiss : (resolve_asset w cdt).1 = none ∨ (resolve_asset w cdt).2 = none) :
    check_service_terms env w cdt dt owner_address signature = false := by
  unfold check_service_terms
  rw [hng]
  cases howner : check_dt_owner w dt owner_address
  · simp
  · rcases hres : resolve_asset w cdt with ⟨od, odd⟩
    rw [hres] at hmiss
    cases od <;> cases odd <;> simp_all

/-- C4 witness: the token `Z` is not minted in the concrete world, so
the authorization check for it returns false. -/
theorem check_service_terms_missing_record_false_witness :
    check_service_terms env0 w0 "Z" "A" "ownA" "good" = false :=
  check_service_terms_missing_record_false env0 w0 "Z" "A" "ownA" "good"
    (by decide) (Or.inl rfl)

/-- C5: document building fails with `MalformedService`, returning no
DDO, whenever two supplied services share an index or a workflow entry
references a child absent from the declared child tokens. -/
theorem generate_ddo_malformed_service (env : Env) (w : World)
    (metadata : Metadata) (services : List Service) (owner_address : Address)
    (child_dts : List Dt) (verify : Bool)
    (h : dupIndex services = true ∨ badWorkflowRef child_dts services = true) :
    generate_ddo env w metadata services owner_address child_dts verify =
      .error .malformedService := by
  unfold generate_ddo
  rcases h with h | h <;> simp [h]

/-- C5 witness: two copies of the same service share their index, so
building fails with `MalformedService`. -/
theorem generate_ddo_malformed_service_witness :
    generate_ddo env0 w0 {} [svcA, svcA] "ownA" [] true =
      .error .malformedService :=
  generate_ddo_malformed_service env0 w0 {} [svcA, svcA] "ownA" [] true
    (Or.inl (by decide))

/-- The effect trace of a publish call, in program order: the Object
Store write first, then the Registry mint with the obtained locator. -/
theorem publish_dt_events_eq (env : Env) (w : World) (ddo : DDO)
    (wallet : Address) :
    (publish_dt env w ddo wallet).2 =
      [Effect.putDoc ddo (env.locatorOf ddo),
       Effect.mintToken ddo.dt ddo.creator ddo.child_dts.isEmpty
         ddo.proof_checksum (env.locatorOf ddo) wallet] := rfl

/-- C6: in every execution of `publish_dt`, any mint effect is strictly
preceded in the trace by the store effect that wrote the document it
references, at the same locator. -/
theorem publish_store_precedes_mint (env : Env) (w : World) (ddo : DDO)
    (wallet : Address) (i : Nat) (dt : Dt) (owner : Address) (isLeaf : Bool)
    (checksum : Checksum) (loc : Locator) (wlt : Address)
    (hi : (publish_dt env w ddo wallet).2[i]? =
      some (Effect.mintToken dt owner isLeaf checksum loc wlt)) :
    ∃ j, j < i ∧
      (publish_dt env w ddo wallet).2[j]? = some (Effect.putDoc ddo loc) := by
  rw [publish_dt_events_eq] at hi
  match i with
  | 0 => simp at hi
  | 1 =>
    simp only [List.getElem?_cons_succ, List.getElem?_cons_zero,
      Option.some.injEq, Effect.mintToken.injEq] at hi
    obtain ⟨hdt, hown, hleaf, hck, hloc, hw⟩ := hi
    refine ⟨0, Nat.zero_lt_one, ?_⟩
    rw [publish_dt_events_eq]
    simp [hloc]
  | n + 2 => simp at hi

/-- C6 witness: publishing the document of `A` yields the mint effect at
position one, and the theorem locates the store effect before it. -/
theorem publish_store_precedes_mint_witness :
    ∃ j, j < 1 ∧ (publish_dt env0 w0 ddoA "issA").2[j]? =
      some (Effect.putDoc ddoA "loc:A") :=
  publish_store_precedes_mint env0 w0 ddoA "issA" 1 "A" "ownA" true 7
    "loc:A" "issA" (by decide)

/-- C7: publishing a DDO mints its token with owner equal to the
document creator, leaf status exactly when no child tokens are declared,
the proof checksum, and a locator under which the Object Store returns
that very document. -/
theorem publish_mints_expected_record (env : Env) (w : World) (ddo : DDO)
    (wallet : Address) :
    ∃ loc,
      getTokenRecord (publish_dt env w ddo wallet).1 ddo.dt =
        some { owner := ddo.creator, issuer := wallet,
               isLeaf := ddo.child_dts.isEmpty,
               checksum := ddo.proof_checksum, locator := loc } ∧
      storeGet (publish_dt env w ddo wallet).1 loc = some ddo := by
  refine ⟨env.locatorOf ddo, ?_, ?_⟩
  · simp [publish_dt, storePut, mint_dt, getTokenRecord, List.lookup]
  · simp [publish_dt, storePut, mint_dt, storeGet, List.lookup]

/-- The length of a `filterMap` equals the number of elements on which
the function produces a value. -/
theorem length_filterMap_eq_length_filter {α β : Type} (f : α → Option β)
    (l : List α) :
    (l.filterMap f).length = (l.filter (fun a => (f a).isSome)).length := by
  induction l with
  | nil => rfl
  | cons a l ih =>
    cases h : f a <;> simp [List.filterMap_cons, List.filter_cons, h, ih]

/-- C8: the marketplace holds exactly one projected entry for each
registered token whose document resolves, is not Algorithm-typed and
passes the integrity check, and nothing else: membership is equivalent
to that condition, and the listing length counts exactly the passing
records, so failing tokens are silently omitted. -/
theorem marketplace_entries_characterization (env : Env) (w : World) :
    (∀ e, e ∈ get_dt_marketplace env w ↔
      ∃ p ∈ w.records, ∃ ddo,
        storeGet w p.2.locator = some ddo ∧
        ddo.metadata.mtype ≠ some "Algorithm" ∧
        verify_ddo_integrity env ddo p.2.checksum = true ∧
        e = market_entry_of env p.1 p.2 ddo) ∧
    (get_dt_marketplace env w).length =
      (w.records.filter (fun p => (market_step env w p).isSome)).length := by
  constructor
  · intro e
    simp only [get_dt_marketplace, List.mem_filterMap]
    constructor
    · rintro ⟨p, hp, hstep⟩
      unfold market_step at hstep
      rcases hres : storeGet w p.2.locator with _ | ddo <;> rw [hres] at hstep
      · simp at hstep
      · dsimp only at hstep
        split_ifs at hstep with h1 h2
        exact ⟨p, hp, ddo, hres, by simpa using h1, h2,
          (Option.some.inj hstep).symm⟩
    · rintro ⟨p, hp, ddo, hres, htype, hint, rfl⟩
      exact ⟨p, hp, by simp [market_step, hres, htype, hint]⟩
  · exact length_filterMap_eq_length_filter (market_step env w) w.records

/-- C8 witness: the entry projected from token `A` belongs to the
concrete marketplace listing through the characterization. -/
theorem marketplace_entries_characterization_witness :
    ({ dt := "A", issuer := "org:issA", name := some "dataset1",
       fig := none, union_or_not := false } : MarketEntry) ∈
      get_dt_marketplace env0 w0 :=
  ((marketplace_entries_characterization env0 w0).1 _).mpr
    ⟨("A", { owner := "ownA", issuer := "issA", isLeaf := true,
             checksum := 7, locator := "lA" }),
     by decide, ddoA, by decide, by decide, by decide, by decide⟩

/-- C9: detail queries return an absent result on any resolution or
integrity failure, and a present result carries rendered lineage data
exactly when the document is composite. -/
theorem details_resolution_and_lineage (env : Env) (w : World) (dt : Dt) :
    ((resolve_asset w dt).1 = none ∨ (resolve_asset w dt).2 = none →
      get_dt_details env w dt = none) ∧
    (∀ data ddo, resolve_asset w dt = (some data, some ddo) →
      verify_ddo_integrity env ddo data.checksum = false →
      get_dt_details env w dt = none) ∧
    (∀ data ddo, resolve_asset w dt = (some data, some ddo) →
      verify_ddo_integrity env ddo data.checksum = true →
      ∃ info svcs,
        get_dt_details env w dt =
          some (info, svcs,
            if ddo.is_cdt then some (env.traceRender ddo) else none)) := by
  refine ⟨?_, ?_, ?_⟩
  · intro h
    unfold get_dt_details
    rcases hres : resolve_asset w dt with ⟨od, odd⟩
    rw [hres] at h
    cases od <;> cases odd <;> simp_all
  · intro data ddo hres hint
    unfold get_dt_details
    rw [hres]
    simp [hint]
  · intro data ddo hres hint
    unfold get_dt_details
    rw [hres]
    simp only [hint, Bool.not_true, Bool.false_eq_true, if_false]
    exact ⟨_, _, rfl⟩

/-- C9 witness: the unminted token `Z` resolves to nothing, so its
details query returns `none` through the theorem. -/
theorem details_resolution_and_lineage_witness :
    get_dt_details env0 w0 "Z" = none :=
  (details_resolution_and_lineage env0 w0 "Z").1 (Or.inl rfl)

/-- C10: with `verify` unset, `generate_ddo` never raises the service
verification `AssertionError`; on structurally well-formed inputs it
returns the built DDO — fresh identifier assigned and proof attached —
regardless of service verification, and when the services fail
verification the same inputs with `verify` set raise the
`AssertionError`. -/
theorem generate_ddo_skip_verification (env : Env) (w : World)
    (metadata : Metadata) (services : List Service) (owner_address : Address)
    (child_dts : List Dt) :
    generate_ddo env w metadata services owner_address child_dts false ≠
      .error .assertionError ∧
    (dupIndex services = false → badWorkflowRef child_dts services = false →
      ∃ ddo,
        generate_ddo env w metadata services owner_address child_dts false =
          .ok ddo ∧
        ddo.toDocBody =
          { dt := env.newDt, creator := owner_address, metadata := metadata,
            services := services, child_dts := child_dts } ∧
        ddo.proof_checksum = env.hashDoc ddo.toDocBody ∧
        (verify_services env w ddo none true = false →
          generate_ddo env w metadata services owner_address child_dts true =
            .error .assertionError)) := by
  constructor
  · unfold generate_ddo
    cases h : (dupIndex services || badWorkflowRef child_dts services) <;> simp
  · intro h1 h2
    refine ⟨built_ddo env metadata services owner_address child_dts,
      ?_, rfl, rfl, ?_⟩
    · unfold generate_ddo
      simp [h1, h2]
    · intro hv
      unfold generate_ddo
      simp [h1, h2, hv]

/-- C10 witness: a document whose only service references an unpublished
template is built and returned with `verify` unset, while the same
inputs with `verify` set raise the `AssertionError`. -/
theorem generate_ddo_skip_verification_witness :
    generate_ddo env0 w0 {} [svcX] "ownA" [] true = .error .assertionError := by
  obtain ⟨ddo, hok, hbody, hck, himp⟩ :=
    (generate_ddo_skip_verification env0 w0 {} [svcX] "ownA" []).2
      (by decide) (by decide)
  apply himp
  have hddo : ddo = built_ddo env0 {} [svcX] "ownA" [] := by
    have h2 : generate_ddo env0 w0 {} [svcX] "ownA" [] false =
        .ok (built_ddo env0 {} [svcX] "ownA" []) := by rfl
    exact Except.ok.inj (hok.symm.trans h2)
  rw [hddo]
  decide

end DataToken
